import Mathlib

/-!
# Verification of the LuaJIT VM profiler (`src/lj_vmprofile.c`)

A shallow embedding of the sampling profiler in `src/lj_vmprofile.c`:
the counter store (`VMProfile`), the signal-handler classifier
(`vmprofile_signal`), the timer control (`start_timer` / `stop_timer`)
and the Lua API entry points (`luaJIT_vmprofile_open`,
`vmprofile_set_profile`).

Machine integers of the C source (`int`, `intptr_t`, `ptrdiff_t`) are
modelled as `Int`; the C bitwise complement `~x` on a two's-complement
`int` is `-1 - x`, written `intNot` below.  Counter cells are `Nat`
(the C counters are `uint64_t` and only ever incremented; no claim
depends on 64-bit wraparound).  Counter arrays are modelled as total
functions from the index type, so frame properties are stated
pointwise.
-/

set_option autoImplicit false

/-- The C bitwise complement `~x` of a two's-complement signed integer. -/
def intNot (x : Int) : Int := -1 - x

/-- Modelled from the spec: the execution-mode bucket indices `LJ_VMST_*`
are declared in `lj_obj.h` / `lj_vmprofile.h`, headers that are not part
of the given sources.  The spec (§3, §6) fixes the set of buckets
(`Interpreter, GarbageCollection, JitGc, JitFfi, JitLoop, JitHead` plus
further host modes) and that non-JIT modes are encoded as `~vmstate`.
Only the distinctness of these indices matters to any claim below, never
their numeric values; we use the interpreter-first enumeration order. -/
def LJ_VMST_INTERP : Int := 0

/-- C-function mode index (see `LJ_VMST_INTERP`). -/
def LJ_VMST_C : Int := 1

/-- Garbage-collector mode index (see `LJ_VMST_INTERP`). -/
def LJ_VMST_GC : Int := 2

/-- Trace-exit mode index (see `LJ_VMST_INTERP`). -/
def LJ_VMST_EXIT : Int := 3

/-- Recorder mode index (see `LJ_VMST_INTERP`). -/
def LJ_VMST_RECORD : Int := 4

/-- Optimizer mode index (see `LJ_VMST_INTERP`). -/
def LJ_VMST_OPT : Int := 5

/-- Assembler mode index (see `LJ_VMST_INTERP`). -/
def LJ_VMST_ASM : Int := 6

/-- JIT head bucket index (see `LJ_VMST_INTERP`). -/
def LJ_VMST_HEAD : Int := 7

/-- JIT loop bucket index (see `LJ_VMST_INTERP`). -/
def LJ_VMST_LOOP : Int := 8

/-- JIT garbage-collection bucket index (see `LJ_VMST_INTERP`). -/
def LJ_VMST_JGC : Int := 9

/-- JIT foreign-call bucket index (see `LJ_VMST_INTERP`). -/
def LJ_VMST_FFI : Int := 10

/-- Modelled from the spec: the per-trace table bound `LJ_VMPROFILE_TRACE_MAX`
is declared in `lj_vmprofile.h`, which is not part of the given sources; the
spec (§3) only states that the table is fixed-size with index 0 the overflow
bucket.  No claim depends on the numeric value. -/
def LJ_VMPROFILE_TRACE_MAX : Int := 4096

/-- The five per-trace sub-counters of `VMProfileTraceCount`
(`src/lj_vmprofile.c` uses fields `gc, interp, ffi, loop, head`). -/
inductive TraceField : Type
  | gc
  | interp
  | ffi
  | loop
  | head
deriving DecidableEq, Repr

/-- The per-trace counter record `VMProfileTraceCount`. -/
structure VMProfileTraceCount : Type where
  gc : Nat
  interp : Nat
  ffi : Nat
  loop : Nat
  head : Nat

/-- Read one sub-counter of a `VMProfileTraceCount`. -/
def getCount (c : VMProfileTraceCount) : TraceField → Nat
  | .gc => c.gc
  | .interp => c.interp
  | .ffi => c.ffi
  | .loop => c.loop
  | .head => c.head

/-- Increment one sub-counter of a `VMProfileTraceCount` (the C `count->f++`). -/
def bumpCount (c : VMProfileTraceCount) : TraceField → VMProfileTraceCount
  | .gc => { c with gc := c.gc + 1 }
  | .interp => { c with interp := c.interp + 1 }
  | .ffi => { c with ffi := c.ffi + 1 }
  | .loop => { c with loop := c.loop + 1 }
  | .head => { c with head := c.head + 1 }

/-- The shared counter store `VMProfile`: magic/version header, the global
per-mode counters `vm[]` and the per-trace table `trace[]`.  The arrays are
modelled as total functions over `Int` indices. -/
structure VMProfile : Type where
  magic : Nat
  major : Nat
  minor : Nat
  vm : Int → Nat
  trace : Int → VMProfileTraceCount

/-- Increment one global mode counter (the C `profile->vm[i]++`). -/
def bumpVm (p : VMProfile) (i : Int) : VMProfile :=
  { p with vm := fun j => if j = i then p.vm j + 1 else p.vm j }

/-- Increment one sub-counter of one per-trace bucket
(the C `count = &profile->trace[b]; count->f++`). -/
def bumpTraceField (p : VMProfile) (b : Int) (f : TraceField) : VMProfile :=
  { p with trace := fun j => if j = b then bumpCount (p.trace j) f else p.trace j }

/-- The per-trace data the handler reads through `traceref`: compiled-code
base address `mcode`, code size `szmcode` and loop-entry offset `mcloop`. -/
structure GCtrace : Type where
  mcode : Int
  szmcode : Int
  mcloop : Int

/-- The host `global_State` fields the handler reads: `vmstate`,
`gcvmstate`, `lasttrace`, and the trace table reached via `traceref`. -/
structure GlobalState : Type where
  vmstate : Int
  gcvmstate : Int
  lasttrace : Int
  traces : Int → GCtrace

/-- The trace-number resolution at the top of `vmprofile_signal`
(`src/lj_vmprofile.c:61-72`): the local `int trace`. -/
def signalTrace (g : GlobalState) : Int :=
  if g.vmstate > 0 then g.vmstate
  else if intNot g.vmstate = LJ_VMST_GC then g.gcvmstate
  else if intNot g.vmstate = LJ_VMST_INTERP ∧ g.lasttrace > 0 then g.lasttrace
  else 0

/-- The per-trace `bucket` computation of `src/lj_vmprofile.c:75`:
`trace > LJ_VMPROFILE_TRACE_MAX ? 0 : trace`. -/
def bucketIndex (trace : Int) : Int :=
  if trace > LJ_VMPROFILE_TRACE_MAX then 0 else trace

/-- The if/else classification chain of `src/lj_vmprofile.c:81-96`, deciding
which sub-counter a sample with an attributed trace falls into, given the
`vmstate`, the trace record `T` and `mcposition = ip - T.mcode`. -/
def signalClass (vmstate : Int) (T : GCtrace) (mcposition : Int) : TraceField :=
  if intNot vmstate = LJ_VMST_GC then TraceField.gc
  else if intNot vmstate = LJ_VMST_INTERP then TraceField.interp
  else if mcposition < 0 ∨ mcposition ≥ T.szmcode then TraceField.ffi
  else if T.mcloop ≠ 0 ∧ mcposition ≥ T.mcloop then TraceField.loop
  else TraceField.head

/-- The global bucket incremented alongside each per-trace sub-counter in
the chain of `src/lj_vmprofile.c:81-96` (`vm[LJ_VMST_JGC]++` with
`count->gc++`, and so on): each branch pairs one sub-counter with one
global bucket. -/
def globalBucketOf : TraceField → Int
  | .gc => LJ_VMST_JGC
  | .interp => LJ_VMST_INTERP
  | .ffi => LJ_VMST_FFI
  | .loop => LJ_VMST_LOOP
  | .head => LJ_VMST_HEAD

/-- The five (sub-counter, global bucket) pairings realised by the
classification chain of `src/lj_vmprofile.c:81-96`. -/
def pairTable : List (TraceField × Int) :=
  [(TraceField.gc, LJ_VMST_JGC), (TraceField.interp, LJ_VMST_INTERP),
   (TraceField.ffi, LJ_VMST_FFI), (TraceField.loop, LJ_VMST_LOOP),
   (TraceField.head, LJ_VMST_HEAD)]

/-- The classification applied by the handler for an attributed trace:
`signalClass` at `T = traceref(trace)` and `mcposition = ip - T->mcode`
(`src/lj_vmprofile.c:77-79`). -/
def signalField (g : GlobalState) (ip : Int) : TraceField :=
  signalClass g.vmstate (g.traces (signalTrace g))
    (ip - (g.traces (signalTrace g)).mcode)

/-- Result of one handler invocation: the (possibly absent) profile after
the invocation, and how many `printf` calls the invocation performed
(`src/lj_vmprofile.c:80` sits inside the `trace > 0` branch). -/
structure SignalResult : Type where
  profile : Option VMProfile
  printfCalls : Nat

/-- The signal handler `vmprofile_signal` (`src/lj_vmprofile.c:56-102`),
as a function of the current `profile` pointer, the host state and the
interrupted instruction pointer `ip` (`REG_RIP` from the `ucontext`).
When `profile == NULL` nothing happens; when a trace is attributed
(`trace > 0`) the handler performs one `printf` and bumps one global and
one per-trace counter; otherwise it bumps `vm[~vmstate]` only. -/
def vmprofile_signal (profile : Option VMProfile) (g : GlobalState) (ip : Int) :
    SignalResult :=
  match profile with
  | none => ⟨none, 0⟩
  | some prof =>
    if signalTrace g > 0 then
      ⟨some (bumpTraceField (bumpVm prof (globalBucketOf (signalField g ip)))
          (bucketIndex (signalTrace g)) (signalField g ip)), 1⟩
    else
      ⟨some (bumpVm prof (intNot g.vmstate)), 0⟩

/-- `vmprofile_set_profile` (`src/lj_vmprofile.c:46-51`): install a region
as the current profile, stamping magic and version; everything else in the
region is left untouched. -/
def vmprofile_set_profile (counters : VMProfile) : VMProfile :=
  { counters with magic := 0x1d50f007, major := 3, minor := 0 }

/-- The all-zero counter region produced by `memset(ptr, 0, sizeof(VMProfile))`. -/
def zeroProfile : VMProfile :=
  { magic := 0, major := 0, minor := 0,
    vm := fun _ => 0,
    trace := fun _ => ⟨0, 0, 0, 0, 0⟩ }

/-- Result of `luaJIT_vmprofile_open`: the returned region (or none), and
how many mappings are left established by the call. -/
structure OpenResult : Type where
  region : Option VMProfile
  mappedCount : Nat

/-- `luaJIT_vmprofile_open` (`src/lj_vmprofile.c:128-145`), with the three
fallible system calls (`open`, `ftruncate`, `mmap`) abstracted as success
flags; the `&&` chain of the C source short-circuits, so `mmap` is only
attempted (and a mapping only established) when the earlier steps
succeeded.  On full success the mapped region is zeroed by `memset` and
returned; on any failure `nil` is returned and no mapping remains. -/
def luaJIT_vmprofile_open (openOk ftruncateOk mmapOk : Bool) : OpenResult :=
  if openOk then
    if ftruncateOk then
      if mmapOk then ⟨some zeroProfile, 1⟩
      else ⟨none, 0⟩
    else ⟨none, 0⟩
  else ⟨none, 0⟩

/-- A process's handler slot for `SIGPROF`: either the profiler's handler
`vmprofile_signal` or some other (prior) handler. -/
inductive SigHandler : Type
  | vmprofileSignal
  | other (n : Nat)
deriving DecidableEq, Repr

/-- The `struct itimerval` fields set by `start_timer` / `stop_timer`. -/
structure Itimerval : Type where
  it_value_sec : Int
  it_value_usec : Int
  it_interval_sec : Int
  it_interval_usec : Int
deriving DecidableEq, Repr

/-- The all-zero (disarmed) `itimerval` written by `stop_timer`. -/
def itimervalZero : Itimerval := ⟨0, 0, 0, 0⟩

/-- The per-process signal/timer state the two timer functions act on. -/
structure SigState : Type where
  handler : SigHandler
  timer : Itimerval
deriving DecidableEq, Repr

/-- `start_timer` (`src/lj_vmprofile.c:104-115`): arm `ITIMER_PROF` with
`interval` milliseconds and install `vmprofile_signal` via
`sigaction(SIGPROF, &sa, &state.oldsa)`, which saves the previously
installed handler into `state.oldsa`.  Returns the new process state and
the new value of `state.oldsa`. -/
def start_timer (interval : Int) (s : SigState) : SigState × SigHandler :=
  (⟨SigHandler.vmprofileSignal,
    ⟨interval / 1000, (interval % 1000) * 1000,
     interval / 1000, (interval % 1000) * 1000⟩⟩,
   s.handler)

/-- `stop_timer` (`src/lj_vmprofile.c:117-124`): write an all-zero
`itimerval` (disarming the timer), then call
`sigaction(SIGPROF, NULL, &state.oldsa)` — a NULL new-action, which
installs nothing and only reads the currently installed handler into
`state.oldsa`.  Returns the new process state and the new value of
`state.oldsa`. -/
def stop_timer (s : SigState) : SigState × SigHandler :=
  (⟨s.handler, itimervalZero⟩, s.handler)

/-- A host state executing JIT machine code of trace 1, whose code region
is `[100, 110)` with loop entry offset 8. -/
def gJit : GlobalState :=
  { vmstate := 1, gcvmstate := 0, lasttrace := 0,
    traces := fun _ => ⟨100, 10, 8⟩ }

/-- A host state in a non-attributing mode: `vmstate = ~LJ_VMST_C` with a
positive `gcvmstate` that must not be consulted. -/
def gOther : GlobalState :=
  { vmstate := -2, gcvmstate := 7, lasttrace := 0,
    traces := fun _ => ⟨100, 10, 8⟩ }

/-- A host state executing JIT machine code of trace 1 whose code region
`[100, 110)` has loop-entry offset 0 (no loop entry recorded). -/
def gJitK0 : GlobalState :=
  { vmstate := 1, gcvmstate := 0, lasttrace := 0,
    traces := fun _ => ⟨100, 10, 0⟩ }

/-- Modelled from the spec's words (§4.2 step 1), for comparison with the
code's `signalTrace`: "if mode denotes active JIT machine code, that trace;
else if mode denotes the collector running in JIT context, gcActiveTrace;
else if mode denotes the interpreter and lastFinishedTrace > 0, that trace;
else no trace is attributed".  "The collector running in JIT context" is
read as: the mode is the collector and the saved `gcvmstate` is a trace
number (positive). -/
def specAttributedTrace (g : GlobalState) : Option Int :=
  if 0 < g.vmstate then some g.vmstate
  else if intNot g.vmstate = LJ_VMST_GC ∧ 0 < g.gcvmstate then some g.gcvmstate
  else if intNot g.vmstate = LJ_VMST_INTERP ∧ 0 < g.lasttrace then some g.lasttrace
  else none

lemma bumpVm_vm (p : VMProfile) (m i : Int) :
    (bumpVm p m).vm i = p.vm i + (if i = m then 1 else 0) := by
  simp only [bumpVm]
  split <;> simp

lemma bumpVm_trace (p : VMProfile) (m : Int) : (bumpVm p m).trace = p.trace := rfl

lemma getCount_bumpCount (c : VMProfileTraceCount) (f fl : TraceField) :
    getCount (bumpCount c f) fl = getCount c fl + (if fl = f then 1 else 0) := by
  cases f <;> cases fl <;> simp [getCount, bumpCount]

lemma bumpTraceField_vm (p : VMProfile) (b : Int) (f : TraceField) :
    (bumpTraceField p b f).vm = p.vm := rfl

lemma bumpTraceField_getCount (p : VMProfile) (b : Int) (f : TraceField)
    (t : Int) (fl : TraceField) :
    getCount ((bumpTraceField p b f).trace t) fl =
      getCount (p.trace t) fl + (if t = b ∧ fl = f then 1 else 0) := by
  simp only [bumpTraceField]
  by_cases hb : t = b
  · simp [hb, getCount_bumpCount]
  · simp [hb]

/-- C9: if no counter store has ever been installed (the active-store
pointer is null), a handler invocation performs no write at all: the
handler returns with the store still absent and with no side effect. -/
theorem vmprofile_signal_no_profile_noop (g : GlobalState) (ip : Int) :
    vmprofile_signal none g ip = ⟨none, 0⟩ := rfl

/-- C10: `vmprofile_set_profile` unconditionally stamps the header with
magic `0x1d50f007`, version major 3 and minor 0, and leaves every global
and per-trace counter of the region unchanged. -/
theorem vmprofile_set_profile_stamps_header (c : VMProfile) (i t : Int) :
    (vmprofile_set_profile c).magic = 0x1d50f007 ∧
    (vmprofile_set_profile c).major = 3 ∧
    (vmprofile_set_profile c).minor = 0 ∧
    (vmprofile_set_profile c).vm i = c.vm i ∧
    (vmprofile_set_profile c).trace t = c.trace t :=
  ⟨rfl, rfl, rfl, rfl, rfl⟩

/-- C4: for a positive attributed trace id `t`, the per-trace bucket index
is 0 exactly when `t` exceeds `LJ_VMPROFILE_TRACE_MAX`, is `t` itself
otherwise, and a trace id equal to the bound uses its own bucket. -/
theorem bucketIndex_overflow_law (t : Int) (h : 0 < t) :
    (bucketIndex t = 0 ↔ LJ_VMPROFILE_TRACE_MAX < t) ∧
    (t ≤ LJ_VMPROFILE_TRACE_MAX → bucketIndex t = t) ∧
    bucketIndex LJ_VMPROFILE_TRACE_MAX = LJ_VMPROFILE_TRACE_MAX := by
  unfold bucketIndex LJ_VMPROFILE_TRACE_MAX
  refine ⟨?_, ?_, ?_⟩
  · split <;> omega
  · intro ht
    split <;> omega
  · split <;> omega

/-- C4 witness: trace id 4097 exceeds the bound and folds into bucket 0. -/
theorem bucketIndex_overflow_law_witness : bucketIndex 4097 = 0 :=
  (bucketIndex_overflow_law 4097 (by decide)).1.mpr (by decide)

/-- C5: evaluating `stop_timer` after `start_timer` on a process whose
prior `SIGPROF` handler was some foreign handler: the timer is disarmed,
but the handler still installed is `vmprofile_signal` (the
`sigaction(SIGPROF, NULL, ..)` call installs nothing), and the saved
old-handler slot now holds `vmprofile_signal`, ruining the saved value. -/
theorem stop_timer_disarms_but_keeps_handler :
    (stop_timer (start_timer 1 ⟨SigHandler.other 7, itimervalZero⟩).1).1.timer =
      itimervalZero ∧
    (stop_timer (start_timer 1 ⟨SigHandler.other 7, itimervalZero⟩).1).1.handler =
      SigHandler.vmprofileSignal ∧
    (stop_timer (start_timer 1 ⟨SigHandler.other 7, itimervalZero⟩).1).2 =
      SigHandler.vmprofileSignal ∧
    SigHandler.vmprofileSignal ≠ SigHandler.other 7 := by
  refine ⟨rfl, rfl, rfl, by decide⟩

/-- C7: evaluating the handler at a sample taken inside JIT machine code
(trace attributed): the invocation performs one `printf` call — a side
effect beyond reading state and incrementing counters — while an
invocation with no store performs none. -/
theorem vmprofile_signal_printf_effect :
    (vmprofile_signal (some zeroProfile) gJit 104).printfCalls = 1 ∧
    (vmprofile_signal none gJit 104).printfCalls = 0 := by
  refine ⟨?_, rfl⟩
  rfl

/-- C6 counterexample: the fully successful `luaJIT_vmprofile_open` returns
the `memset`-zeroed region, whose magic field is 0, not the magic value
`0x1d50f007` — the open path zeroes but never stamps. -/
theorem vmprofile_open_no_magic_stamp :
    (luaJIT_vmprofile_open true true true).region = some zeroProfile ∧
    zeroProfile.magic ≠ 0x1d50f007 :=
  ⟨rfl, by decide⟩

/-- C6 (amended): `luaJIT_vmprofile_open` either returns a region of
`sizeof(VMProfile)` bytes that has been zeroed (header fields and every
counter zero — the magic/version stamp is applied later by
`vmprofile_set_profile`, not by open), or returns none with no mapping
left established. -/
theorem vmprofile_open_zeroed_or_none (o f m : Bool) (p : VMProfile)
    (i t : Int) (fl : TraceField) :
    ((luaJIT_vmprofile_open o f m).region = none →
      (luaJIT_vmprofile_open o f m).mappedCount = 0) ∧
    ((luaJIT_vmprofile_open o f m).region = some p →
      p.magic = 0 ∧ p.major = 0 ∧ p.minor = 0 ∧ p.vm i = 0 ∧
      getCount (p.trace t) fl = 0 ∧
      (luaJIT_vmprofile_open o f m).mappedCount = 1) := by
  cases o <;> cases f <;> cases m <;> refine ⟨fun h => ?_, fun h => ?_⟩ <;>
    first
      | rfl
      | exact Option.noConfusion h
      | { injection h with h
          subst h
          exact ⟨rfl, rfl, rfl, rfl, by cases fl <;> rfl, rfl⟩ }

/-- C6 witness: the successful open at concrete flags yields the zeroed,
unstamped region and exactly one mapping. -/
theorem vmprofile_open_zeroed_or_none_witness :
    zeroProfile.magic = 0 ∧ zeroProfile.major = 0 ∧ zeroProfile.minor = 0 ∧
    zeroProfile.vm 5 = 0 ∧ getCount (zeroProfile.trace 3) TraceField.head = 0 ∧
    (luaJIT_vmprofile_open true true true).mappedCount = 1 :=
  (vmprofile_open_zeroed_or_none true true true zeroProfile 5 3 TraceField.head).2 rfl

/-- C1 counterexample: a sample attributed to trace 1 with code region
`[100, 110)` and loop-entry offset `k = 0`, interrupted exactly at
`base = 100`: the code classifies it as `head` — the `mcloop != 0` guard
of `src/lj_vmprofile.c:93` fails — not `loop` as the claim states for the
`k = 0` case. -/
theorem signalClass_k_zero_base_not_loop :
    signalField gJitK0 100 = TraceField.head ∧
    TraceField.head ≠ TraceField.loop :=
  ⟨by decide, by decide⟩

/-- C1 (amended): given trace code `[base, base+len)` and loop-entry
offset `k` with `0 ≤ k < len`, under an active-JIT mode word: `base-1`
and `base+len` classify as `ffi`; when `1 ≤ k`, `base+k-1` classifies as
`head` and `base+k` as `loop`; when `k = 0` — no loop-entry offset is
defined — a pointer at `base` classifies as `head`, not `loop`. -/
theorem signalClass_offset_boundary_law (vmstate base len k : Int) (T : GCtrace)
    (hbase : T.mcode = base) (hlen : T.szmcode = len) (hloop : T.mcloop = k)
    (hvm : 0 < vmstate) (hk : 0 ≤ k) (hkl : k < len) :
    signalClass vmstate T ((base - 1) - base) = TraceField.ffi ∧
    signalClass vmstate T ((base + len) - base) = TraceField.ffi ∧
    (1 ≤ k →
      signalClass vmstate T ((base + k - 1) - base) = TraceField.head ∧
      signalClass vmstate T ((base + k) - base) = TraceField.loop) ∧
    (k = 0 → signalClass vmstate T (base - base) = TraceField.head) := by
  subst hbase hlen hloop
  have h1 : ¬ intNot vmstate = LJ_VMST_GC := by
    simp only [intNot, LJ_VMST_GC]; omega
  have h2 : ¬ intNot vmstate = LJ_VMST_INTERP := by
    simp only [intNot, LJ_VMST_INTERP]; omega
  refine ⟨?_, ?_, fun hk1 => ⟨?_, ?_⟩, fun hk0 => ?_⟩ <;>
    (simp only [signalClass, if_neg h1, if_neg h2];
     split_ifs <;> first | rfl | omega)

/-- C1 witness: trace code `[100, 110)` with loop-entry offset 3, sampled
at instruction pointer 103, classifies as `loop`. -/
theorem signalClass_offset_boundary_law_witness :
    signalClass 1 ⟨100, 10, 3⟩ ((100 + 3) - 100) = TraceField.loop :=
  ((signalClass_offset_boundary_law 1 100 10 3 ⟨100, 10, 3⟩ rfl rfl rfl
    (by decide) (by decide) (by decide)).2.2.1 (by decide)).2

lemma interp_ne_gc : LJ_VMST_INTERP ≠ LJ_VMST_GC := by decide

lemma gc_ne_interp : LJ_VMST_GC ≠ LJ_VMST_INTERP := by decide

/-- C2: the handler resolves the attributed trace in priority order —
positive mode word: that trace; collector mode: `gcvmstate`; interpreter
mode with positive `lasttrace`: that trace — the result agrees with the
spec's attribution rule (`specAttributedTrace`, attribution happening
exactly when the resolved id is positive), and when no trace is
attributed only the global counter at the mapped mode `~vmstate` is
incremented, with the per-trace table untouched. -/
theorem vmprofile_signal_trace_attribution (g : GlobalState) (p : VMProfile)
    (ip i : Int) :
    (0 < g.vmstate → signalTrace g = g.vmstate) ∧
    (intNot g.vmstate = LJ_VMST_GC → signalTrace g = g.gcvmstate) ∧
    (intNot g.vmstate = LJ_VMST_INTERP → 0 < g.lasttrace →
      signalTrace g = g.lasttrace) ∧
    specAttributedTrace g =
      (if 0 < signalTrace g then some (signalTrace g) else none) ∧
    (signalTrace g ≤ 0 →
      vmprofile_signal (some p) g ip = ⟨some (bumpVm p (intNot g.vmstate)), 0⟩ ∧
      (bumpVm p (intNot g.vmstate)).vm i =
        p.vm i + (if i = intNot g.vmstate then 1 else 0) ∧
      (bumpVm p (intNot g.vmstate)).trace = p.trace) := by
  refine ⟨?_, ?_, ?_, ?_, ?_⟩
  · intro h
    simp [signalTrace, h]
  · intro h
    have hne : ¬ g.vmstate > 0 := by
      simp only [intNot, LJ_VMST_GC] at h; omega
    simp [signalTrace, hne, h]
  · intro h hl
    have hne : ¬ g.vmstate > 0 := by
      simp only [intNot, LJ_VMST_INTERP] at h; omega
    have hne2 : ¬ intNot g.vmstate = LJ_VMST_GC := by
      simp only [intNot, LJ_VMST_INTERP] at h
      simp only [intNot, LJ_VMST_GC]; omega
    simp [signalTrace, hne, hne2, h, hl, interp_ne_gc]
  · by_cases h1 : g.vmstate > 0
    · simp [specAttributedTrace, signalTrace, h1]
    · by_cases h2 : intNot g.vmstate = LJ_VMST_GC
      · by_cases h3 : 0 < g.gcvmstate
        · simp [specAttributedTrace, signalTrace, h1, h2, h3]
        · have h4 : ¬ (intNot g.vmstate = LJ_VMST_INTERP ∧ 0 < g.lasttrace) := by
            simp only [intNot, LJ_VMST_GC] at h2
            simp only [intNot, LJ_VMST_INTERP]
            omega
          simp [specAttributedTrace, signalTrace, h1, h2, h3, h4, gc_ne_interp]
      · by_cases h4 : intNot g.vmstate = LJ_VMST_INTERP ∧ 0 < g.lasttrace
        · simp [specAttributedTrace, signalTrace, h1, h2, h4, h4.2, interp_ne_gc]
        · simp [specAttributedTrace, signalTrace, h1, h2, h4]
  · intro h
    have hn : ¬ signalTrace g > 0 := by omega
    exact ⟨by simp [vmprofile_signal, hn], bumpVm_vm p (intNot g.vmstate) i, rfl⟩

/-- C2 witness: in mode `~LJ_VMST_C` with no attributed trace the handler
bumps only the global counter at the mapped mode. -/
theorem vmprofile_signal_trace_attribution_witness :
    vmprofile_signal (some zeroProfile) gOther 0 =
      ⟨some (bumpVm zeroProfile (intNot gOther.vmstate)), 0⟩ :=
  ((vmprofile_signal_trace_attribution gOther zeroProfile 0 0).2.2.2.2
    (by decide)).1

/-- C3: with an active store and an attributed trace, the handler
increments exactly one global bucket and exactly one per-trace
sub-counter, and the (sub-counter, global bucket) pair is always one of
the five fixed matchings of `pairTable`; in the interpreter-entered
post-trace case the sub-counter is `interp` and the global bucket is
`Interpreter`, never a Jit* bucket. -/
theorem vmprofile_signal_bucket_pairing (p : VMProfile) (g : GlobalState)
    (ip i t : Int) (fl : TraceField) (h : 0 < signalTrace g) :
    (signalField g ip, globalBucketOf (signalField g ip)) ∈ pairTable ∧
    (vmprofile_signal (some p) g ip).profile =
      some (bumpTraceField (bumpVm p (globalBucketOf (signalField g ip)))
        (bucketIndex (signalTrace g)) (signalField g ip)) ∧
    (bumpTraceField (bumpVm p (globalBucketOf (signalField g ip)))
        (bucketIndex (signalTrace g)) (signalField g ip)).vm i =
      p.vm i + (if i = globalBucketOf (signalField g ip) then 1 else 0) ∧
    getCount ((bumpTraceField (bumpVm p (globalBucketOf (signalField g ip)))
        (bucketIndex (signalTrace g)) (signalField g ip)).trace t) fl =
      getCount (p.trace t) fl +
        (if t = bucketIndex (signalTrace g) ∧ fl = signalField g ip then 1
          else 0) ∧
    (intNot g.vmstate = LJ_VMST_INTERP →
      signalField g ip = TraceField.interp ∧
      globalBucketOf (signalField g ip) = LJ_VMST_INTERP) := by
  refine ⟨?_, ?_, ?_, ?_, ?_⟩
  · cases hf : signalField g ip <;> decide
  · simp [vmprofile_signal, h]
  · exact bumpVm_vm p (globalBucketOf (signalField g ip)) i
  · exact bumpTraceField_getCount (bumpVm p (globalBucketOf (signalField g ip)))
      (bucketIndex (signalTrace g)) (signalField g ip) t fl
  · intro hI
    have hne : ¬ intNot g.vmstate = LJ_VMST_GC := by
      simp only [intNot, LJ_VMST_INTERP] at hI
      simp only [intNot, LJ_VMST_GC]; omega
    refine ⟨?_, ?_⟩
    · simp [signalField, signalClass, hne, hI, interp_ne_gc]
    · simp [signalField, signalClass, hne, hI, globalBucketOf, interp_ne_gc]

/-- C3 witness: a sample inside JIT machine code yields one of the five
fixed (sub-counter, global bucket) matchings. -/
theorem vmprofile_signal_bucket_pairing_witness :
    (signalField gJit 104, globalBucketOf (signalField gJit 104)) ∈ pairTable :=
  (vmprofile_signal_bucket_pairing zeroProfile gJit 104 0 0 TraceField.gc
    (by decide)).1

/-- C8: for every counter of the active store, a handler invocation leaves
the counter unchanged or increments it by exactly one — counters are
monotonically non-decreasing and every touched counter grows by one. -/
theorem vmprofile_signal_counters_monotone (p : VMProfile) (g : GlobalState)
    (ip i t : Int) (fl : TraceField) :
    ∃ p', (vmprofile_signal (some p) g ip).profile = some p' ∧
      p.vm i ≤ p'.vm i ∧
      (p'.vm i = p.vm i ∨ p'.vm i = p.vm i + 1) ∧
      p'.magic = p.magic ∧
      getCount (p.trace t) fl ≤ getCount (p'.trace t) fl ∧
      (getCount (p'.trace t) fl = getCount (p.trace t) fl ∨
        getCount (p'.trace t) fl = getCount (p.trace t) fl + 1) := by
  by_cases h : signalTrace g > 0
  · refine ⟨bumpTraceField (bumpVm p (globalBucketOf (signalField g ip)))
      (bucketIndex (signalTrace g)) (signalField g ip),
      by simp [vmprofile_signal, h], ?_, ?_, rfl, ?_, ?_⟩
    · rw [bumpTraceField_vm, bumpVm_vm]
      split <;> omega
    · rw [bumpTraceField_vm, bumpVm_vm]
      split <;> omega
    · rw [bumpTraceField_getCount, bumpVm_trace]
      split <;> omega
    · rw [bumpTraceField_getCount, bumpVm_trace]
      split <;> omega
  · refine ⟨bumpVm p (intNot g.vmstate),
      by simp [vmprofile_signal, h], ?_, ?_, rfl, ?_, ?_⟩
    · rw [bumpVm_vm]
      split <;> omega
    · rw [bumpVm_vm]
      split <;> omega
    · rw [bumpVm_trace]
    · rw [bumpVm_trace]
      left
      rfl
